import Mathlib

/-!
Shallow embedding of `custom_components/wyzeapi/switch.py` (Wyze switch
platform for a home-automation system) and proofs of its specified
properties.

The Python entities `WyzeSwitch` and `WyzeNotifications` are modelled as
explicit state records; each `async` method becomes a pure function from
the entity state and the outcome of the awaited remote call to the new
state together with the propagated error (if any).  Python dictionary
values that may be absent or of the wrong type are modelled by `PyVal`,
and the `TypeError` raised by `str + "%"` on a non-string operand is
modelled by `Except`.
-/

namespace Wyzeapi

/-- A Python value stored in a device's `device_params` dictionary:
a string, an integer, or `None`. -/
inductive PyVal where
  | str (s : String)
  | int (n : Int)
  | none
deriving DecidableEq, Repr

/-- Python truthiness of a `PyVal`: `None` and empty strings and `0`
are falsy, everything else is truthy. -/
def pyTruthy : PyVal → Bool
  | .str s => !(s == "")
  | .int n => !(n == 0)
  | .none => false

/-- Python `str(v)` applied to a `PyVal`; never fails. -/
def pyStr : PyVal → String
  | .str s => s
  | .int n => toString n
  | .none => "None"

/-- Whether a `PyVal` is a Python string. -/
def isStrVal : PyVal → Bool
  | .str _ => true
  | _ => false

/-- The only Python exception class the attribute code can raise:
`TypeError` from `value + "%"` on a non-string operand. -/
inductive PyError where
  | typeError
deriving DecidableEq, Repr

/-- Python `v + suffix` where `suffix` is a string: concatenation when
`v` is a string, a `TypeError` otherwise. -/
def pyAddStr (v : PyVal) (suffix : String) : Except PyError String :=
  match v with
  | .str s => Except.ok (s ++ suffix)
  | _ => Except.error PyError.typeError

/-- Python `d.get(k)` on a `device_params` dictionary (modelled as an
association list): the stored value, or `None` when the key is absent. -/
def dictGet (params : List (String × PyVal)) (k : String) : PyVal :=
  (params.lookup k).getD PyVal.none

/-- Errors raised by the remote client / service adapter:
an authentication-expired error or a transient network error. -/
inductive WyzeError where
  | accessTokenError
  | transientError
deriving DecidableEq, Repr

/-- The Device Record owned by a `WyzeSwitch`: the fields of
`wyzeapy.types.Device` that `switch.py` reads or writes. -/
structure Device where
  mac : String
  nickname : String
  product_model : String
  on_flag : Bool
  available : Bool
  device_params : List (String × PyVal)
deriving DecidableEq, Repr

/-- A value in the entity's display-attribute dictionary: a string or
a boolean. -/
inductive AttrVal where
  | s (v : String)
  | b (v : Bool)
deriving DecidableEq, Repr

/-- `ATTRIBUTION = "Data provided by Wyze"` from `switch.py`. -/
def ATTRIBUTION : String := "Data provided by Wyze"

/-- Modelled from the spec: the `token_exception_handler` decorator from
`token_manager.py` (not part of the sources here).  Per the spec it
catches the authentication-expired error at the wrapped entry point and
hands it to the centralized token-refresh flow, so that error does not
escape to the caller; other errors pass through. -/
def token_exception_handler {α : Type} (r : α × Option WyzeError) :
    α × Option WyzeError :=
  match r with
  | (a, some WyzeError.accessTokenError) => (a, Option.none)
  | other => other

namespace WyzeSwitch

/-- The mutable state of a `WyzeSwitch` entity: the owned Device Record
`_device` and the `_just_updated` flag. -/
structure State where
  device : Device
  just_updated : Bool
deriving DecidableEq, Repr

/-- `WyzeSwitch.__init__`: store the device; `_just_updated` starts
false (class attribute default). -/
def init (device : Device) : State :=
  { device := device, just_updated := false }

/-- `WyzeSwitch.is_on` property: `self._device.on`. -/
def is_on (s : State) : Bool :=
  s.device.on_flag

/-- `WyzeSwitch.available` property: `self._device.available`. -/
def available (s : State) : Bool :=
  s.device.available

/-- `WyzeSwitch.unique_id` property: `"{}-switch".format(self._device.mac)`. -/
def unique_id (s : State) : String :=
  s.device.mac ++ "-switch"

/-- Body of `WyzeSwitch.async_turn_on` (before the
`token_exception_handler` decorator is applied).  `adapterResult` is the
outcome of `await self._service.turn_on(self._device)`: if it raises,
the exception propagates and no local field is touched; on success the
record's `on` flag is set and `_just_updated` is raised. -/
def async_turn_on (s : State) (adapterResult : Except WyzeError Unit) :
    State × Option WyzeError :=
  match adapterResult with
  | .error e => (s, some e)
  | .ok _ =>
    ({ device := { s.device with on_flag := true }, just_updated := true },
     Option.none)

/-- Body of `WyzeSwitch.async_turn_off` (before decoration), symmetric
to `async_turn_on`. -/
def async_turn_off (s : State) (adapterResult : Except WyzeError Unit) :
    State × Option WyzeError :=
  match adapterResult with
  | .error e => (s, some e)
  | .ok _ =>
    ({ device := { s.device with on_flag := false }, just_updated := true },
     Option.none)

/-- Body of `WyzeSwitch.async_update` (before decoration).
`refreshResult` is what `await self._service.update(self._device)`
would return if called.  The second component of the result records
whether the adapter's `update` was actually invoked. -/
def async_update (s : State) (refreshResult : Except WyzeError Device) :
    (State × Option WyzeError) × Bool :=
  if !s.just_updated then
    match refreshResult with
    | .ok d => (({ s with device := d }, Option.none), true)
    | .error e => ((s, some e), true)
  else
    (({ s with just_updated := false }, Option.none), false)

/-- `WyzeSwitch.async_turn_on` as the platform calls it: the body
wrapped by `@token_exception_handler`. -/
def async_turn_on_wrapped (s : State) (adapterResult : Except WyzeError Unit) :
    State × Option WyzeError :=
  token_exception_handler (async_turn_on s adapterResult)

/-- `WyzeSwitch.async_turn_off` as the platform calls it: the body
wrapped by `@token_exception_handler`. -/
def async_turn_off_wrapped (s : State) (adapterResult : Except WyzeError Unit) :
    State × Option WyzeError :=
  token_exception_handler (async_turn_off s adapterResult)

/-- `WyzeSwitch.async_update` as the platform calls it: the body
wrapped by `@token_exception_handler`. -/
def async_update_wrapped (s : State) (refreshResult : Except WyzeError Device) :
    (State × Option WyzeError) × Bool :=
  ((token_exception_handler (async_update s refreshResult).1),
   (async_update s refreshResult).2)

/-- `WyzeSwitch.async_update_callback`: replace the owned record with
the pushed one and schedule a platform state refresh.  The boolean
records that `async_schedule_update_ha_state` was called. -/
def async_update_callback (s : State) (pushed : Device) : State × Bool :=
  ({ s with device := pushed }, true)

/-- The base display-attribute dictionary of
`WyzeSwitch.device_state_attributes`, in insertion order. -/
def baseAttrs (s : State) : List (String × AttrVal) :=
  [("attribution", AttrVal.s ATTRIBUTION),
   ("state", AttrVal.b (is_on s)),
   ("available", AttrVal.b (available s)),
   ("device model", AttrVal.s s.device.product_model),
   ("mac", AttrVal.s (unique_id s))]

/-- `WyzeSwitch.device_state_attributes`: the base dictionary plus the
conditionally-present telemetry entries, each added only when
`device_params.get(key)` is truthy.  The "Battery" entry computes
`str(get("electricity") + "%")`, which raises `TypeError` when the
stored value is truthy but not a string. -/
def device_state_attributes (s : State) :
    Except PyError (List (String × AttrVal)) :=
  match (if pyTruthy (dictGet s.device.device_params "electricity") then
           (pyAddStr (dictGet s.device.device_params "electricity") "%").map
             (fun v => [("Battery", AttrVal.s v)])
         else Except.ok []) with
  | .error e => Except.error e
  | .ok batteryPart =>
    Except.ok
      (baseAttrs s ++ batteryPart ++
       (if pyTruthy (dictGet s.device.device_params "ip") then
          [("IP", AttrVal.s (pyStr (dictGet s.device.device_params "ip")))]
        else []) ++
       (if pyTruthy (dictGet s.device.device_params "rssi") then
          [("RSSI", AttrVal.s (pyStr (dictGet s.device.device_params "rssi")))]
        else []) ++
       (if pyTruthy (dictGet s.device.device_params "ssid") then
          [("SSID", AttrVal.s (pyStr (dictGet s.device.device_params "ssid")))]
        else []))

end WyzeSwitch

/-- Whether a display-attribute dictionary contains a key. -/
def hasKey (l : List (String × AttrVal)) (k : String) : Bool :=
  l.any (fun p => p.1 == k)

namespace WyzeNotifications

/-- The mutable state of a `WyzeNotifications` entity: the stored
`_uid`, the `_is_on` boolean and the `_just_updated` flag. -/
structure State where
  uid : String
  is_on : Bool
  just_updated : Bool
deriving DecidableEq, Repr

/-- `WyzeNotifications.__init__`: store the uid; `_is_on` starts false
and `_just_updated` starts false. -/
def init (uid : String) : State :=
  { uid := uid, is_on := false, just_updated := false }

/-- `WyzeNotifications.unique_id` property: the stored `_uid`. -/
def unique_id (s : State) : String :=
  s.uid

/-- `WyzeNotifications.async_turn_on`.  It carries no
`token_exception_handler` decorator in the source, so any error from
`await self._client.enable_notifications()` propagates unhandled; on
success `_is_on` and `_just_updated` are set and a platform state
refresh is scheduled. -/
def async_turn_on (s : State) (clientResult : Except WyzeError Unit) :
    State × Option WyzeError :=
  match clientResult with
  | .error e => (s, some e)
  | .ok _ => ({ s with is_on := true, just_updated := true }, Option.none)

/-- `WyzeNotifications.async_turn_off`, symmetric to `async_turn_on`;
also undecorated in the source. -/
def async_turn_off (s : State) (clientResult : Except WyzeError Unit) :
    State × Option WyzeError :=
  match clientResult with
  | .error e => (s, some e)
  | .ok _ => ({ s with is_on := false, just_updated := true }, Option.none)

/-- `WyzeNotifications.async_update` (undecorated in the source):
when `_just_updated` is clear, adopt `await
self._client.notifications_are_on` (whose error would propagate);
otherwise consume the flag. -/
def async_update (s : State) (remote : Except WyzeError Bool) :
    State × Option WyzeError :=
  if !s.just_updated then
    match remote with
    | .ok b => ({ s with is_on := b }, Option.none)
    | .error e => (s, some e)
  else
    ({ s with just_updated := false }, Option.none)

/-- `WyzeNotifications.device_state_attributes`: a fixed dictionary;
never raises. -/
def device_state_attributes (s : State) : List (String × AttrVal) :=
  [("attribution", AttrVal.s ATTRIBUTION),
   ("state", AttrVal.b s.is_on),
   ("available", AttrVal.b true),
   ("mac", AttrVal.s (unique_id s))]

end WyzeNotifications

/-! ### The persisted-identifier lookup `get_uid` of `async_setup_entry`

`get_uid` reads `wyze_config.ini`; if the `OPTIONS`/`SYSTEM_ID` entry
exists it returns it, otherwise it generates `uuid.uuid4().hex`, writes
it to the file and returns it.  The config store is modelled by the
optional `SYSTEM_ID` entry, and `uuid.uuid4()`'s randomness by the 16
random bytes whose lowercase hex encoding `.hex` returns. -/

/-- The lowercase hex digit of a value below 16: `0`–`9` then `a`–`f`. -/
def hexDigit (n : Nat) : Char :=
  if n < 10 then Char.ofNat (Char.toNat '0' + n)
  else Char.ofNat (Char.toNat 'a' + (n - 10))

/-- The two lowercase hex digits of one byte. -/
def byteHexChars (b : Nat) : List Char :=
  [hexDigit (b % 256 / 16), hexDigit (b % 16)]

/-- `uuid.uuid4().hex`: the lowercase hex encoding of the uuid's 16
bytes (the version/variant bits do not affect length or hexness). -/
def uuid4Hex (bytes : List Nat) : String :=
  String.mk ((bytes.map byteHexChars).flatten)

/-- Whether a character is a lowercase hex digit. -/
def isHexChar (c : Char) : Bool :=
  (('0' ≤ c) && (c ≤ '9')) || (('a' ≤ c) && (c ≤ 'f'))

/-- Whether a string is a 32-character lowercase hex token. -/
def isHex32 (s : String) : Bool :=
  s.length == 32 && s.data.all isHexChar

/-- The persisted key/value store behind `wyze_config.ini`: the
`OPTIONS`/`SYSTEM_ID` entry, when present. -/
structure ConfigStore where
  systemId : Option String
deriving DecidableEq, Repr

/-- `get_uid` from `async_setup_entry`: if the store has the
`OPTIONS`/`SYSTEM_ID` entry return it (no write); otherwise generate
`uuid.uuid4().hex` from the 16 random bytes, write it to the store and
return it.  The result is the returned uid, the store as left on disk,
and whether the file was written. -/
def get_uid (store : ConfigStore) (randomBytes : List Nat) :
    String × ConfigStore × Bool :=
  match store.systemId with
  | some v => (v, store, false)
  | Option.none =>
    let new_uid := uuid4Hex randomBytes
    (new_uid, { systemId := some new_uid }, true)

/-! ### Sample concrete inputs used by the witness theorems -/

/-- A concrete Device Record with empty telemetry. -/
def sampleDevice : Device :=
  { mac := "ABC123", nickname := "plug", product_model := "WLPP1",
    on_flag := false, available := true, device_params := [] }

/-- A second concrete Device Record sharing `sampleDevice`'s mac but
differing in every other field. -/
def sampleDevice2 : Device :=
  { mac := "ABC123", nickname := "other", product_model := "WLPP2",
    on_flag := true, available := false,
    device_params := [("ip", PyVal.str "10.0.0.9")] }

/-- A third concrete Device Record with a distinct mac, standing for a
refreshed or pushed record. -/
def sampleDevice3 : Device :=
  { mac := "ZZZ999", nickname := "fresh", product_model := "WLPP1",
    on_flag := true, available := true,
    device_params := [("rssi", PyVal.str "-60")] }

/-! ### Claims -/

/-- C1: for a `WyzeSwitch` on which a command (`async_turn_on` or
`async_turn_off`) has just completed successfully, the `_just_updated`
flag is set; the next `async_update` call leaves the owned Device
Record unchanged, only consumes the flag, and does not invoke the
adapter's `update`; the call after that invokes the adapter's `update`
and replaces the owned Device Record wholesale with the result. -/
theorem C1_poll_skip_once_then_refresh (s s1 : WyzeSwitch.State)
    (res : Except WyzeError Unit) (r1 r2 : Device)
    (h : WyzeSwitch.async_turn_on s res = (s1, Option.none) ∨
         WyzeSwitch.async_turn_off s res = (s1, Option.none)) :
    s1.just_updated = true ∧
    (WyzeSwitch.async_update_wrapped s1 (Except.ok r1)).1.1.device = s1.device ∧
    (WyzeSwitch.async_update_wrapped s1 (Except.ok r1)).1.1.just_updated = false ∧
    (WyzeSwitch.async_update_wrapped s1 (Except.ok r1)).2 = false ∧
    (WyzeSwitch.async_update_wrapped
        (WyzeSwitch.async_update_wrapped s1 (Except.ok r1)).1.1
        (Except.ok r2)).1.1.device = r2 ∧
    (WyzeSwitch.async_update_wrapped
        (WyzeSwitch.async_update_wrapped s1 (Except.ok r1)).1.1
        (Except.ok r2)).2 = true := by
  have hj : s1.just_updated = true := by
    rcases h with h | h
    · cases res with
      | error e => simp [WyzeSwitch.async_turn_on] at h
      | ok u =>
        simp [WyzeSwitch.async_turn_on] at h
        rw [← h]
    · cases res with
      | error e => simp [WyzeSwitch.async_turn_off] at h
      | ok u =>
        simp [WyzeSwitch.async_turn_off] at h
        rw [← h]
  refine ⟨hj, ?_, ?_, ?_, ?_, ?_⟩ <;>
    simp [WyzeSwitch.async_update_wrapped, WyzeSwitch.async_update,
      token_exception_handler, hj]

/-- C1 witness: the two-cycle behaviour after a successful
`async_turn_on` on `sampleDevice`, evaluated concretely. -/
theorem C1_poll_skip_once_then_refresh_witness :
    ({ device := { sampleDevice with on_flag := true },
       just_updated := true } : WyzeSwitch.State).just_updated = true ∧
    (WyzeSwitch.async_update_wrapped
        { device := { sampleDevice with on_flag := true }, just_updated := true }
        (Except.ok sampleDevice3)).1.1.device =
      ({ device := { sampleDevice with on_flag := true },
         just_updated := true } : WyzeSwitch.State).device ∧
    (WyzeSwitch.async_update_wrapped
        { device := { sampleDevice with on_flag := true }, just_updated := true }
        (Except.ok sampleDevice3)).1.1.just_updated = false ∧
    (WyzeSwitch.async_update_wrapped
        { device := { sampleDevice with on_flag := true }, just_updated := true }
        (Except.ok sampleDevice3)).2 = false ∧
    (WyzeSwitch.async_update_wrapped
        (WyzeSwitch.async_update_wrapped
          { device := { sampleDevice with on_flag := true }, just_updated := true }
          (Except.ok sampleDevice3)).1.1
        (Except.ok sampleDevice2)).1.1.device = sampleDevice2 ∧
    (WyzeSwitch.async_update_wrapped
        (WyzeSwitch.async_update_wrapped
          { device := { sampleDevice with on_flag := true }, just_updated := true }
          (Except.ok sampleDevice3)).1.1
        (Except.ok sampleDevice2)).2 = true :=
  C1_poll_skip_once_then_refresh (WyzeSwitch.init sampleDevice)
    { device := { sampleDevice with on_flag := true }, just_updated := true }
    (Except.ok ()) sampleDevice3 sampleDevice2 (Or.inl rfl)

/-- C2: immediately after a successful `async_turn_on`, `is_on` is
true, and the owned record is the old record with only its `on` flag
flipped (no refresh replaced it); symmetrically for `async_turn_off`. -/
theorem C2_optimistic_state (s s' s'' : WyzeSwitch.State)
    (res res2 : Except WyzeError Unit)
    (hon : WyzeSwitch.async_turn_on s res = (s', Option.none))
    (hoff : WyzeSwitch.async_turn_off s res2 = (s'', Option.none)) :
    WyzeSwitch.is_on s' = true ∧
    s'.device = { s.device with on_flag := true } ∧
    WyzeSwitch.is_on s'' = false ∧
    s''.device = { s.device with on_flag := false } := by
  cases res with
  | error e => simp [WyzeSwitch.async_turn_on] at hon
  | ok u =>
    cases res2 with
    | error e => simp [WyzeSwitch.async_turn_off] at hoff
    | ok u2 =>
      simp [WyzeSwitch.async_turn_on] at hon
      simp [WyzeSwitch.async_turn_off] at hoff
      rw [← hon, ← hoff]
      exact ⟨rfl, rfl, rfl, rfl⟩

/-- C2 witness: the optimistic flips evaluated on `sampleDevice`. -/
theorem C2_optimistic_state_witness :
    WyzeSwitch.is_on
      { device := { sampleDevice with on_flag := true }, just_updated := true } = true ∧
    ({ device := { sampleDevice with on_flag := true },
       just_updated := true } : WyzeSwitch.State).device =
      { (WyzeSwitch.init sampleDevice).device with on_flag := true } ∧
    WyzeSwitch.is_on
      { device := { sampleDevice with on_flag := false }, just_updated := true } = false ∧
    ({ device := { sampleDevice with on_flag := false },
       just_updated := true } : WyzeSwitch.State).device =
      { (WyzeSwitch.init sampleDevice).device with on_flag := false } :=
  C2_optimistic_state (WyzeSwitch.init sampleDevice)
    { device := { sampleDevice with on_flag := true }, just_updated := true }
    { device := { sampleDevice with on_flag := false }, just_updated := true }
    (Except.ok ()) (Except.ok ()) rfl rfl

/-- C3: a push (`async_update_callback`) always replaces the owned
Device Record wholesale with the pushed record and schedules a platform
state-display refresh, leaving the `_just_updated` flag untouched —
regardless of the flag's value. -/
theorem C3_push_always_replaces (s : WyzeSwitch.State) (pushed : Device) :
    (WyzeSwitch.async_update_callback s pushed).1.device = pushed ∧
    (WyzeSwitch.async_update_callback s pushed).1.just_updated = s.just_updated ∧
    (WyzeSwitch.async_update_callback s pushed).2 = true := by
  exact ⟨rfl, rfl, rfl⟩

/-- C4: when the adapter's `turn_on` / `turn_off` raises, the command
leaves the entity state (record and `_just_updated` flag) exactly as it
was, and the error propagates out of the method body. -/
theorem C4_failure_leaves_state (s : WyzeSwitch.State) (e : WyzeError) :
    WyzeSwitch.async_turn_on s (Except.error e) = (s, some e) ∧
    WyzeSwitch.async_turn_off s (Except.error e) = (s, some e) := by
  exact ⟨rfl, rfl⟩

/-- C5 counterexample: `WyzeNotifications.async_turn_on` carries no
`token_exception_handler` decorator, so an authentication-expired error
from `enable_notifications` escapes it unhandled. -/
theorem C5_counterexample_notifications_unwrapped :
    WyzeNotifications.async_turn_on (WyzeNotifications.init "0123")
        (Except.error WyzeError.accessTokenError) =
      (WyzeNotifications.init "0123", some WyzeError.accessTokenError) := rfl

/-- C5 (amended): the `WyzeSwitch` entry points (`async_turn_on`,
`async_turn_off`, `async_update`) are wrapped by
`token_exception_handler`, so an authentication-expired error never
escapes them; the `WyzeNotifications` entry points are not wrapped, and
the same error escapes each of them. -/
theorem C5_amended_auth_error_coverage (s : WyzeSwitch.State)
    (sn : WyzeNotifications.State) :
    WyzeSwitch.async_turn_on_wrapped s (Except.error WyzeError.accessTokenError) =
      (s, Option.none) ∧
    WyzeSwitch.async_turn_off_wrapped s (Except.error WyzeError.accessTokenError) =
      (s, Option.none) ∧
    (WyzeSwitch.async_update_wrapped { s with just_updated := false }
        (Except.error WyzeError.accessTokenError)).1 =
      ({ s with just_updated := false }, Option.none) ∧
    (WyzeNotifications.async_turn_on sn
        (Except.error WyzeError.accessTokenError)).2 =
      some WyzeError.accessTokenError ∧
    (WyzeNotifications.async_turn_off sn
        (Except.error WyzeError.accessTokenError)).2 =
      some WyzeError.accessTokenError ∧
    (WyzeNotifications.async_update { sn with just_updated := false }
        (Except.error WyzeError.accessTokenError)).2 =
      some WyzeError.accessTokenError := by
  exact ⟨rfl, rfl, rfl, rfl, rfl, rfl⟩

/-- C6 counterexample: a record whose `device_params` contains the key
`"electricity"` with the (falsy) value `""` — the key is present, yet
`device_state_attributes` omits `"Battery"`, because the code tests the
value's truthiness, not the key's presence. -/
theorem C6_counterexample_present_but_falsy :
    ((([("electricity", PyVal.str "")] : List (String × PyVal)).lookup
        "electricity").isSome = true) ∧
    Except.map (fun l => hasKey l "Battery")
      (WyzeSwitch.device_state_attributes
        (WyzeSwitch.init
          { mac := "AA", nickname := "p", product_model := "M",
            on_flag := false, available := true,
            device_params := [("electricity", PyVal.str "")] })) =
      Except.ok false := by
  exact ⟨rfl, rfl⟩

/-- C6 (amended): whenever `device_state_attributes` returns a
dictionary, it contains `"Battery"` if and only if the value stored
under `"electricity"` in the record's `device_params` is truthy (a
present-but-falsy value, such as the empty string, omits the entry);
the same truthiness rule governs `"IP"`, `"RSSI"` and `"SSID"` for the
keys `"ip"`, `"rssi"` and `"ssid"`. -/
theorem C6_amended_battery_iff_truthy (s : WyzeSwitch.State)
    (l : List (String × AttrVal))
    (h : WyzeSwitch.device_state_attributes s = Except.ok l) :
    hasKey l "Battery" = pyTruthy (dictGet s.device.device_params "electricity") ∧
    hasKey l "IP" = pyTruthy (dictGet s.device.device_params "ip") ∧
    hasKey l "RSSI" = pyTruthy (dictGet s.device.device_params "rssi") ∧
    hasKey l "SSID" = pyTruthy (dictGet s.device.device_params "ssid") := by
  cases he : pyTruthy (dictGet s.device.device_params "electricity") with
  | false =>
    simp [WyzeSwitch.device_state_attributes, he] at h
    subst h
    cases hip : pyTruthy (dictGet s.device.device_params "ip") <;>
      cases hrs : pyTruthy (dictGet s.device.device_params "rssi") <;>
        cases hss : pyTruthy (dictGet s.device.device_params "ssid") <;>
          simp [hasKey, WyzeSwitch.baseAttrs, hip, hrs, hss, he, List.any_append]
  | true =>
    cases hv : dictGet s.device.device_params "electricity" with
    | str v =>
      rw [hv] at he
      simp [WyzeSwitch.device_state_attributes, hv, he, pyAddStr,
        Except.map] at h
      subst h
      cases hip : pyTruthy (dictGet s.device.device_params "ip") <;>
        cases hrs : pyTruthy (dictGet s.device.device_params "rssi") <;>
          cases hss : pyTruthy (dictGet s.device.device_params "ssid") <;>
            simp [hasKey, WyzeSwitch.baseAttrs, hip, hrs, hss, hv, he,
              List.any_append]
    | int n =>
      rw [hv] at he
      simp [WyzeSwitch.device_state_attributes, hv, he, pyAddStr,
        Except.map] at h
    | none =>
      rw [hv] at he
      simp [pyTruthy] at he

/-- C6 witness: a record with `"electricity" = "85"` and
`"ip" = "1.2.3.4"` yields a dictionary with `"Battery"` and `"IP"`
present and `"RSSI"`, `"SSID"` absent, matching the truthiness of the
stored values. -/
theorem C6_amended_battery_iff_truthy_witness :
    hasKey
        [("attribution", AttrVal.s ATTRIBUTION), ("state", AttrVal.b false),
         ("available", AttrVal.b true), ("device model", AttrVal.s "M"),
         ("mac", AttrVal.s "AA-switch"), ("Battery", AttrVal.s "85%"),
         ("IP", AttrVal.s "1.2.3.4")] "Battery" =
      pyTruthy (dictGet
        (WyzeSwitch.init
          { mac := "AA", nickname := "p", product_model := "M",
            on_flag := false, available := true,
            device_params := [("electricity", PyVal.str "85"),
                              ("ip", PyVal.str "1.2.3.4")] }).device.device_params
        "electricity") ∧
    hasKey
        [("attribution", AttrVal.s ATTRIBUTION), ("state", AttrVal.b false),
         ("available", AttrVal.b true), ("device model", AttrVal.s "M"),
         ("mac", AttrVal.s "AA-switch"), ("Battery", AttrVal.s "85%"),
         ("IP", AttrVal.s "1.2.3.4")] "IP" =
      pyTruthy (dictGet
        (WyzeSwitch.init
          { mac := "AA", nickname := "p", product_model := "M",
            on_flag := false, available := true,
            device_params := [("electricity", PyVal.str "85"),
                              ("ip", PyVal.str "1.2.3.4")] }).device.device_params
        "ip") ∧
    hasKey
        [("attribution", AttrVal.s ATTRIBUTION), ("state", AttrVal.b false),
         ("available", AttrVal.b true), ("device model", AttrVal.s "M"),
         ("mac", AttrVal.s "AA-switch"), ("Battery", AttrVal.s "85%"),
         ("IP", AttrVal.s "1.2.3.4")] "RSSI" =
      pyTruthy (dictGet
        (WyzeSwitch.init
          { mac := "AA", nickname := "p", product_model := "M",
            on_flag := false, available := true,
            device_params := [("electricity", PyVal.str "85"),
                              ("ip", PyVal.str "1.2.3.4")] }).device.device_params
        "rssi") ∧
    hasKey
        [("attribution", AttrVal.s ATTRIBUTION), ("state", AttrVal.b false),
         ("available", AttrVal.b true), ("device model", AttrVal.s "M"),
         ("mac", AttrVal.s "AA-switch"), ("Battery", AttrVal.s "85%"),
         ("IP", AttrVal.s "1.2.3.4")] "SSID" =
      pyTruthy (dictGet
        (WyzeSwitch.init
          { mac := "AA", nickname := "p", product_model := "M",
            on_flag := false, available := true,
            device_params := [("electricity", PyVal.str "85"),
                              ("ip", PyVal.str "1.2.3.4")] }).device.device_params
        "ssid") :=
  C6_amended_battery_iff_truthy
    (WyzeSwitch.init
      { mac := "AA", nickname := "p", product_model := "M",
        on_flag := false, available := true,
        device_params := [("electricity", PyVal.str "85"),
                          ("ip", PyVal.str "1.2.3.4")] })
    [("attribution", AttrVal.s ATTRIBUTION), ("state", AttrVal.b false),
     ("available", AttrVal.b true), ("device model", AttrVal.s "M"),
     ("mac", AttrVal.s "AA-switch"), ("Battery", AttrVal.s "85%"),
     ("IP", AttrVal.s "1.2.3.4")] (by rfl)

/-- C7 counterexample: a record whose `"electricity"` value is the
integer 85 (truthy but not a string) makes `device_state_attributes`
raise a `TypeError` from `85 + "%"` — evaluation is not error-free for
arbitrary `device_params` contents. -/
theorem C7_counterexample_int_electricity :
    WyzeSwitch.device_state_attributes
      (WyzeSwitch.init
        { mac := "AA", nickname := "p", product_model := "M",
          on_flag := false, available := true,
          device_params := [("electricity", PyVal.int 85)] }) =
      Except.error PyError.typeError := rfl

/-- C7 (amended): `device_state_attributes` raises if and only if the
`"electricity"` value is truthy and not a string (the `TypeError` from
`value + "%"`): a missing or falsy key, and any string value, only
affect which display attributes appear and never cause an error. -/
theorem C7_amended_no_raise_unless_nonstring (s : WyzeSwitch.State) :
    (WyzeSwitch.device_state_attributes s).isOk =
      (!(pyTruthy (dictGet s.device.device_params "electricity")) ||
        isStrVal (dictGet s.device.device_params "electricity")) := by
  cases hv : dictGet s.device.device_params "electricity" with
  | str v =>
    by_cases hvv : v = ""
    · simp [WyzeSwitch.device_state_attributes, hv, hvv, pyTruthy, isStrVal,
        Except.isOk, Except.map, Except.toBool]
    · simp [WyzeSwitch.device_state_attributes, hv, hvv, pyTruthy, pyAddStr,
        isStrVal, Except.isOk, Except.map, Except.toBool]
  | int n =>
    by_cases hn : n = 0
    · simp [WyzeSwitch.device_state_attributes, hv, hn, pyTruthy, isStrVal,
        Except.isOk, Except.map, Except.toBool]
    · simp [WyzeSwitch.device_state_attributes, hv, hn, pyTruthy, pyAddStr,
        isStrVal, Except.isOk, Except.map, Except.toBool]
  | none =>
    simp [WyzeSwitch.device_state_attributes, hv, pyTruthy, isStrVal,
      Except.isOk, Except.map, Except.toBool]

/-- C8: `unique_id` is the record's hardware identifier with the fixed
suffix `"-switch"`, hence a deterministic function of the mac alone:
two constructions from records with equal macs agree on it. -/
theorem C8_unique_id_deterministic (d d' : Device) (h : d.mac = d'.mac) :
    WyzeSwitch.unique_id (WyzeSwitch.init d) = d.mac ++ "-switch" ∧
    WyzeSwitch.unique_id (WyzeSwitch.init d) =
      WyzeSwitch.unique_id (WyzeSwitch.init d') := by
  constructor
  · rfl
  · simp [WyzeSwitch.unique_id, WyzeSwitch.init, h]

/-- C8 witness: two records sharing mac `"ABC123"` but differing in
every other field yield the same `unique_id`. -/
theorem C8_unique_id_deterministic_witness :
    WyzeSwitch.unique_id (WyzeSwitch.init sampleDevice) =
      sampleDevice.mac ++ "-switch" ∧
    WyzeSwitch.unique_id (WyzeSwitch.init sampleDevice) =
      WyzeSwitch.unique_id (WyzeSwitch.init sampleDevice2) :=
  C8_unique_id_deterministic sampleDevice sampleDevice2 rfl

/-- Every hex digit of a value below 16 is a lowercase hex character. -/
theorem isHexChar_hexDigit : ∀ n < 16, isHexChar (hexDigit n) = true := by
  decide

/-- The hex encoding of a byte list has two characters per byte. -/
theorem flatten_map_byteHexChars_length (bytes : List Nat) :
    ((bytes.map byteHexChars).flatten).length = 2 * bytes.length := by
  induction bytes with
  | nil => rfl
  | cons b bs ih =>
    simp [byteHexChars, ih]
    ring

/-- `uuid.uuid4().hex` on 16 random bytes is a 32-character lowercase
hex token. -/
theorem uuid4Hex_isHex32 (bytes : List Nat) (h : bytes.length = 16) :
    isHex32 (uuid4Hex bytes) = true := by
  have hlen : (uuid4Hex bytes).length = 32 := by
    show ((bytes.map byteHexChars).flatten).length = 32
    rw [flatten_map_byteHexChars_length, h]
  have hall : ((uuid4Hex bytes).data.all isHexChar) = true := by
    rw [List.all_eq_true]
    intro c hc
    have hc' : c ∈ (bytes.map byteHexChars).flatten := hc
    rw [List.mem_flatten] at hc'
    obtain ⟨l, hl, hcl⟩ := hc'
    rw [List.mem_map] at hl
    obtain ⟨b, -, rfl⟩ := hl
    simp only [byteHexChars, List.mem_cons, List.mem_singleton,
      List.not_mem_nil, or_false] at hcl
    rcases hcl with rfl | rfl
    · refine isHexChar_hexDigit _ ?_
      have h256 : b % 256 < 256 := Nat.mod_lt _ (by norm_num)
      omega
    · exact isHexChar_hexDigit _ (Nat.mod_lt _ (by norm_num))
  simp [isHex32, hlen, hall]

/-- C9: `get_uid` on a store without the `OPTIONS`/`SYSTEM_ID` entry
generates the 32-hex-character uuid token, writes it to the store and
returns it; on a store that has the entry it returns the stored value
and does not write; hence a second run after a first run returns the
first run's token without rewriting. -/
theorem C9_get_uid_persistence (v : String) (bytes bytes2 : List Nat)
    (h : bytes.length = 16) :
    get_uid { systemId := Option.none } bytes =
      (uuid4Hex bytes, { systemId := some (uuid4Hex bytes) }, true) ∧
    isHex32 (uuid4Hex bytes) = true ∧
    get_uid { systemId := some v } bytes = (v, { systemId := some v }, false) ∧
    (get_uid (get_uid { systemId := Option.none } bytes).2.1 bytes2).1 =
      (get_uid { systemId := Option.none } bytes).1 ∧
    (get_uid (get_uid { systemId := Option.none } bytes).2.1 bytes2).2.2 =
      false := by
  exact ⟨rfl, uuid4Hex_isHex32 bytes h, rfl, rfl, rfl⟩

/-- C9 witness: the persisted-identifier behaviour evaluated on 16
concrete random bytes and the stored value `"stored"`. -/
theorem C9_get_uid_persistence_witness :
    get_uid { systemId := Option.none } (List.range 16) =
      (uuid4Hex (List.range 16),
       { systemId := some (uuid4Hex (List.range 16)) }, true) ∧
    isHex32 (uuid4Hex (List.range 16)) = true ∧
    get_uid { systemId := some "stored" } (List.range 16) =
      ("stored", { systemId := some "stored" }, false) ∧
    (get_uid (get_uid { systemId := Option.none } (List.range 16)).2.1
        (List.range 16)).1 =
      (get_uid { systemId := Option.none } (List.range 16)).1 ∧
    (get_uid (get_uid { systemId := Option.none } (List.range 16)).2.1
        (List.range 16)).2.2 = false :=
  C9_get_uid_persistence "stored" (List.range 16) (List.range 16) (by decide)

/-- C10: the `"mac"` display attribute of a `WyzeSwitch` holds the
entity's `unique_id` — the hardware mac with the `"-switch"` suffix,
not the raw mac — and for `WyzeNotifications` it holds the stored
opaque token, which is its `unique_id`. -/
theorem C10_mac_attr_is_unique_id (s : WyzeSwitch.State)
    (l : List (String × AttrVal)) (sn : WyzeNotifications.State)
    (h : WyzeSwitch.device_state_attributes s = Except.ok l) :
    l.lookup "mac" = some (AttrVal.s (WyzeSwitch.unique_id s)) ∧
    WyzeSwitch.unique_id s = s.device.mac ++ "-switch" ∧
    (WyzeNotifications.device_state_attributes sn).lookup "mac" =
      some (AttrVal.s (WyzeNotifications.unique_id sn)) ∧
    WyzeNotifications.unique_id sn = sn.uid := by
  refine ⟨?_, rfl, ?_, rfl⟩
  · cases he : pyTruthy (dictGet s.device.device_params "electricity") with
    | false =>
      simp [WyzeSwitch.device_state_attributes, he] at h
      subst h
      simp [WyzeSwitch.baseAttrs, List.lookup]
    | true =>
      cases hv : dictGet s.device.device_params "electricity" with
      | str v =>
        rw [hv] at he
        simp [WyzeSwitch.device_state_attributes, hv, he, pyAddStr,
          Except.map] at h
        subst h
        simp [WyzeSwitch.baseAttrs, List.lookup]
      | int n =>
        rw [hv] at he
        simp [WyzeSwitch.device_state_attributes, hv, he, pyAddStr,
          Except.map] at h
      | none =>
        rw [hv] at he
        simp [pyTruthy] at he
  · simp [WyzeNotifications.device_state_attributes, List.lookup]

/-- C10 witness: the `"mac"` attribute evaluated on `sampleDevice`
(yielding `"ABC123-switch"`) and on a Notification Toggle with token
`"u123"`. -/
theorem C10_mac_attr_is_unique_id_witness :
    List.lookup "mac"
        [("attribution", AttrVal.s ATTRIBUTION), ("state", AttrVal.b false),
         ("available", AttrVal.b true), ("device model", AttrVal.s "WLPP1"),
         ("mac", AttrVal.s "ABC123-switch")] =
      some (AttrVal.s (WyzeSwitch.unique_id (WyzeSwitch.init sampleDevice))) ∧
    WyzeSwitch.unique_id (WyzeSwitch.init sampleDevice) =
      (WyzeSwitch.init sampleDevice).device.mac ++ "-switch" ∧
    (WyzeNotifications.device_state_attributes
        (WyzeNotifications.init "u123")).lookup "mac" =
      some (AttrVal.s (WyzeNotifications.unique_id
        (WyzeNotifications.init "u123"))) ∧
    WyzeNotifications.unique_id (WyzeNotifications.init "u123") =
      (WyzeNotifications.init "u123").uid :=
  C10_mac_attr_is_unique_id (WyzeSwitch.init sampleDevice)
    [("attribution", AttrVal.s ATTRIBUTION), ("state", AttrVal.b false),
     ("available", AttrVal.b true), ("device model", AttrVal.s "WLPP1"),
     ("mac", AttrVal.s "ABC123-switch")]
    (WyzeNotifications.init "u123") (by rfl)

end Wyzeapi
